import Mathlib

/-
  Verification of the loan eligibility and approval-decision engine of the
  Teller banking backend (src/backend/app.py, src/backend/models.py).

  Shallow embedding conventions:
  - Python dict records become Lean structures; a field that may be absent
    from the document becomes an Option, and the source idiom
    d.get(key, 0) becomes (field.getD 0).
  - Python floats become rationals.
  - The float infinity produced for the debt-to-income ratio when income is
    zero is modelled by an Option: none stands for the infinity branch.
  - Fallible endpoint code (HTTP errors, uncaught Python exceptions) becomes
    Except values; the database is passed and returned explicitly.
-/

namespace LoanEngine

/-- Python round(x, 4): rounding to four decimal places.  Python uses
banker rounding on floats at exact ties; no theorem below depends on tie
behaviour, so the plain round is used. -/
def round4 (q : ℚ) : ℚ := ((round (q * 10000) : ℤ) : ℚ) / 10000

/-- Python round(x, 2). -/
def round2 (q : ℚ) : ℚ := ((round (q * 100) : ℤ) : ℚ) / 100

/-- Customer document (collection db.customers).  Fields that the engine
reads with .get, or that may be missing from a document, are Options. -/
structure Customer where
  customer_id : String
  credit_score : Option Int := none
  annual_income : Option ℚ := none
  employment_type : Option String := none
  years_with_employer : Option ℚ := none
  business_years : Option ℚ := none
  risk_flags : Option (List String) := none
deriving Repr, DecidableEq

/-- Heterogeneous value carried in a violation entry (the Python dict holds
ints, floats, strings, string lists, and the float infinity). -/
inductive RuleValue where
  | intV : Int → RuleValue
  | natV : Nat → RuleValue
  | ratV : ℚ → RuleValue
  | strV : String → RuleValue
  | listV : List String → RuleValue
  | infV : RuleValue
deriving Repr, DecidableEq

/-- One entry of the violations list built by check_loan_eligibility:
rule name, human-readable message, observed value, threshold. -/
structure Violation where
  rule : String
  message : String
  current_value : RuleValue
  required_value : RuleValue
deriving Repr, DecidableEq

/-- The details snapshot built by check_loan_eligibility.  The last field
is stored under the key loan_to_income_ratio in the source. -/
structure Details where
  credit_score : Int
  active_loan_count : Nat
  annual_income : ℚ
  current_dti : Option ℚ
  projected_dti : Option ℚ
  loan_to_income : Option ℚ
  employment_score : ℚ
  risk_flags : List String
deriving Repr, DecidableEq

/-- Loan document (collection db.loans).  remaining_balance is an Option
because stored documents may lack the key (the evaluator reads it with
.get(key, 0); the display DTI endpoint subscripts it directly).
approved is the tri-state flag written by apply_for_loan. -/
structure Loan where
  loan_id : String := ""
  customer_id : String
  amount : ℚ := 0
  status : String
  approved : Option Bool := none
  remaining_balance : Option ℚ := none
  purpose : String := ""
  decision_source : String := ""
  decision_reason : String := ""
  eligibility_details : Option Details := none
deriving Repr, DecidableEq

/-- Result of check_loan_eligibility. -/
structure EligResult where
  eligible : Bool
  violations : List Violation
  details : Details
  rules_checked : List String
deriving Repr, DecidableEq

-- String constants of the engine (bound to names so they can be reused).
def permanentS : String := "permanent"
def contractS : String := "contract"
def partTimeS : String := "part_time"
def partDashS : String := "part-time"
def selfEmployedS : String := "self_employed"

/-- Models the Python test `x is not None and x >= t` on an optional number. -/
def optAtLeast (x : Option ℚ) (t : ℚ) : Bool :=
  match x with
  | some y => decide (t ≤ y)
  | none => false

/-- Embeds calculate_employment_score (src/backend/app.py lines 220-249):
employment stability score from job type and tenure. -/
def calculate_employment_score (customer : Customer) : ℚ :=
  let emp_type := customer.employment_type
  let years := customer.years_with_employer
  let business_years := customer.business_years
  if emp_type = some permanentS then
    (if optAtLeast years 2 then 1 else 7/10)
  else if emp_type = some contractS then 1/2
  else if emp_type = some partTimeS ∨ emp_type = some partDashS then 3/10
  else if emp_type = some selfEmployedS then
    (if optAtLeast business_years 3 then 3/5 else 2/5)
  else 0

/-- The policy constant map LOAN_ELIGIBILITY_RULES (app.py lines 255-263).
The last-but-one threshold is stored under max_loan_to_income_ratio in the
source. -/
structure EligibilityRules where
  min_credit_score : Int
  max_active_loans : Nat
  max_dti : ℚ
  min_annual_income : ℚ
  max_loan_to_income : ℚ
  min_employment_score : ℚ
  blocked_risk_flags : List String
deriving Repr, DecidableEq

def LOAN_ELIGIBILITY_RULES : EligibilityRules :=
  { min_credit_score := 500
    max_active_loans := 5
    max_dti := 1/2
    min_annual_income := 12000
    max_loan_to_income := 1/2
    min_employment_score := 3/10
    blocked_risk_flags := ["bankruptcy", "fraud", "collections"] }

-- Rule names, as the strings used in the violations list.
def ruleMinCredit : String := "min_credit_score"
def ruleMaxActive : String := "max_active_loans"
def ruleMinIncome : String := "min_annual_income"
def ruleMaxDti : String := "max_dti"
def ruleMaxLti : String := "max_loan_to_income_ratio"
def ruleMinEmp : String := "min_employment_score"
def ruleBlocked : String := "blocked_risk_flags"

/-- The keys of LOAN_ELIGIBILITY_RULES in dict insertion order; this is
what rules_checked reports (max_dti precedes min_annual_income there). -/
def ruleNames : List String :=
  [ruleMinCredit, ruleMaxActive, ruleMaxDti, ruleMinIncome, ruleMaxLti,
   ruleMinEmp, ruleBlocked]

/-- The seven rules in the order the evaluator checks them (rules 1-7 of
the evaluator body), which is the order violations are appended in. -/
def evalOrderNames : List String :=
  [ruleMinCredit, ruleMaxActive, ruleMinIncome, ruleMaxDti, ruleMaxLti,
   ruleMinEmp, ruleBlocked]

/-- Statuses the evaluator treats as active (app.py line 292). -/
def activeStatuses : List String := ["approved", "Active", "active"]

/-- The Mongo query db.loans.find on customer_id and active status. -/
def activeLoansOf (dbLoans : List Loan) (cid : String) : List Loan :=
  dbLoans.filter (fun l => decide (l.customer_id = cid ∧ l.status ∈ activeStatuses))

/-- A single conditional violation entry: [entry] if the condition holds,
else nothing (models the sequential violations.append calls). -/
def violIf (b : Bool) (v : Violation) : List Violation :=
  if b then [v] else []

-- Message builders (modelling the Python f-strings; number formatting is
-- simplified to toString, which no theorem depends on).
def msgMinCredit (cs : Int) : String :=
  "Credit score (" ++ toString cs ++ ") is below minimum required (" ++
    toString LOAN_ELIGIBILITY_RULES.min_credit_score ++ ")"

def msgMaxActive (n : Nat) : String :=
  "Customer has " ++ toString n ++ " active loans (maximum allowed: " ++
    toString LOAN_ELIGIBILITY_RULES.max_active_loans ++ ")"

def msgMinIncome (ai : ℚ) : String :=
  "Annual income (" ++ toString ai ++ ") is below minimum required (" ++
    toString LOAN_ELIGIBILITY_RULES.min_annual_income ++ ")"

def infS : String := "inf"

def msgMaxDti (d : Option ℚ) : String :=
  "Projected DTI (" ++ (match d with | some q => toString q | none => infS) ++
    ") exceeds maximum allowed (50%)"

def msgMaxLti (amount ai : ℚ) : String :=
  "Loan amount (" ++ toString amount ++ ") exceeds 50% of annual income (" ++
    toString ai ++ ")"

def msgMinEmp (s : ℚ) : String :=
  "Employment stability score (" ++ toString s ++
    ") is below minimum required (" ++
    toString LOAN_ELIGIBILITY_RULES.min_employment_score ++ ")"

def sepS : String := ", "

def msgBlocked (flags : List String) : String :=
  "Customer has blocking risk flags: " ++ String.intercalate sepS flags

def noBlockingS : String := "No blocking flags allowed"

/-
  The local values computed inside check_loan_eligibility, as named
  functions (each body is the exact expression the source assigns to the
  corresponding local variable).
-/

/-- customer.get(credit_score, 0). -/
def creditScoreOf (customer : Customer) : Int := customer.credit_score.getD 0

/-- customer.get(annual_income, 0). -/
def annualIncomeOf (customer : Customer) : ℚ := customer.annual_income.getD 0

/-- annual_income / 12 if annual_income > 0 else 0 (app.py line 318). -/
def monthlyIncomeOf (customer : Customer) : ℚ :=
  if 0 < annualIncomeOf customer then annualIncomeOf customer / 12 else 0

/-- sum of remaining_balance / 12 over the active loans (line 319). -/
def existingMonthlyDebt (customer : Customer) (dbLoans : List Loan) : ℚ :=
  ((activeLoansOf dbLoans customer.customer_id).map
    (fun l => l.remaining_balance.getD 0 / 12)).sum

/-- existing monthly debt plus loan_amount / 12 (lines 320-321). -/
def totalMonthlyDebt (customer : Customer) (loan_amount : ℚ)
    (dbLoans : List Loan) : ℚ :=
  existingMonthlyDebt customer dbLoans + loan_amount / 12

/-- The projected DTI of lines 323-326; none models the float infinity
taken when income is zero and projected debt is positive. -/
def dtiOptOf (customer : Customer) (loan_amount : ℚ)
    (dbLoans : List Loan) : Option ℚ :=
  if 0 < monthlyIncomeOf customer then
    some (totalMonthlyDebt customer loan_amount dbLoans / monthlyIncomeOf customer)
  else if 0 < totalMonthlyDebt customer loan_amount dbLoans then none
  else some 0

/-- The rule-4 test dti > max_dti of line 331 (infinity exceeds 0.5). -/
def dtiViolatedB (customer : Customer) (loan_amount : ℚ)
    (dbLoans : List Loan) : Bool :=
  match dtiOptOf customer loan_amount dbLoans with
  | none => true
  | some d => decide (LOAN_ELIGIBILITY_RULES.max_dti < d)

/-- loan_amount / annual_income, only computed when income > 0 (340-341). -/
def ltiOptOf (customer : Customer) (loan_amount : ℚ) : Option ℚ :=
  if 0 < annualIncomeOf customer then
    some (loan_amount / annualIncomeOf customer)
  else none

/-- The rule-5 test, false when the rule is skipped for income <= 0. -/
def ltiViolatedB (customer : Customer) (loan_amount : ℚ) : Bool :=
  match ltiOptOf customer loan_amount with
  | some lti => decide (LOAN_ELIGIBILITY_RULES.max_loan_to_income < lti)
  | none => false

/-- Lines 365-367: flags of the customer lying in the blocked set. -/
def blockedFlagsOf (customer : Customer) : List String :=
  (customer.risk_flags.getD []).filter
    (fun f => decide (f ∈ LOAN_ELIGIBILITY_RULES.blocked_risk_flags))

/-- Embeds check_loan_eligibility (app.py lines 266-381).  dbLoans is the
full db.loans collection; the function itself performs the active-loan
query.  All seven rules are evaluated in order and their conditional
entries concatenated, exactly as the sequential appends do. -/
def check_loan_eligibility (customer : Customer) (loan_amount : ℚ)
    (dbLoans : List Loan) : EligResult :=
  -- Rule 1: minimum credit score
  let credit_score := creditScoreOf customer
  let v1 := violIf (decide (credit_score < LOAN_ELIGIBILITY_RULES.min_credit_score))
    { rule := ruleMinCredit, message := msgMinCredit credit_score,
      current_value := RuleValue.intV credit_score,
      required_value := RuleValue.intV LOAN_ELIGIBILITY_RULES.min_credit_score }
  -- Rule 2: maximum active loans
  let active_loans := activeLoansOf dbLoans customer.customer_id
  let active_loan_count := active_loans.length
  let v2 := violIf (decide (LOAN_ELIGIBILITY_RULES.max_active_loans ≤ active_loan_count))
    { rule := ruleMaxActive, message := msgMaxActive active_loan_count,
      current_value := RuleValue.natV active_loan_count,
      required_value := RuleValue.natV LOAN_ELIGIBILITY_RULES.max_active_loans }
  -- Rule 3: minimum annual income
  let annual_income := annualIncomeOf customer
  let v3 := violIf (decide (annual_income < LOAN_ELIGIBILITY_RULES.min_annual_income))
    { rule := ruleMinIncome, message := msgMinIncome annual_income,
      current_value := RuleValue.ratV annual_income,
      required_value := RuleValue.ratV LOAN_ELIGIBILITY_RULES.min_annual_income }
  -- Rule 4: debt-to-income ratio (none = the float infinity branch)
  let monthly_income := monthlyIncomeOf customer
  let existing_monthly_debt := existingMonthlyDebt customer dbLoans
  let dtiOpt := dtiOptOf customer loan_amount dbLoans
  let v4 := violIf (dtiViolatedB customer loan_amount dbLoans)
    { rule := ruleMaxDti, message := msgMaxDti dtiOpt,
      current_value :=
        (match dtiOpt with
         | none => RuleValue.infV
         | some d => RuleValue.ratV (round4 d)),
      required_value := RuleValue.ratV LOAN_ELIGIBILITY_RULES.max_dti }
  -- Rule 5: loan amount to income (skipped when income is not positive)
  let ltiOpt := ltiOptOf customer loan_amount
  let v5 :=
    match ltiOpt with
    | some lti => violIf (decide (LOAN_ELIGIBILITY_RULES.max_loan_to_income < lti))
        { rule := ruleMaxLti, message := msgMaxLti loan_amount annual_income,
          current_value := RuleValue.ratV (round4 lti),
          required_value := RuleValue.ratV LOAN_ELIGIBILITY_RULES.max_loan_to_income }
    | none => []
  -- Rule 6: employment stability score
  let employment_score := calculate_employment_score customer
  let v6 := violIf (decide (employment_score < LOAN_ELIGIBILITY_RULES.min_employment_score))
    { rule := ruleMinEmp, message := msgMinEmp employment_score,
      current_value := RuleValue.ratV employment_score,
      required_value := RuleValue.ratV LOAN_ELIGIBILITY_RULES.min_employment_score }
  -- Rule 7: blocked risk flags
  let risk_flags := customer.risk_flags.getD []
  let blocked_flags := blockedFlagsOf customer
  let v7 := violIf (decide (blocked_flags ≠ []))
    { rule := ruleBlocked, message := msgBlocked blocked_flags,
      current_value := RuleValue.listV blocked_flags,
      required_value := RuleValue.strV noBlockingS }
  let violations := v1 ++ v2 ++ v3 ++ v4 ++ v5 ++ v6 ++ v7
  { eligible := decide (violations.length = 0)
    violations := violations
    details :=
      { credit_score := credit_score
        active_loan_count := active_loan_count
        annual_income := annual_income
        current_dti :=
          if 0 < monthly_income then some (round4 (existing_monthly_debt / monthly_income))
          else none
        projected_dti :=
          (match dtiOpt with
           | none => none
           | some d => some (round4 d))
        loan_to_income :=
          (match ltiOpt with
           | none => none
           | some lti => some (round4 lti))
        employment_score := employment_score
        risk_flags := risk_flags }
    rules_checked := ruleNames }

/-- The validated loan application payload (src/backend/models.py lines
29-34).  The pydantic model declares customer_id, amount (an unconstrained
float), purpose (a Literal enum, enforced at parse time), and
force_approve with default False.  It declares NO force_reject field. -/
structure LoanRequest where
  customer_id : String
  amount : ℚ
  purpose : String
  force_approve : Option Bool := some false
deriving Repr, DecidableEq

/-- The raw JSON body of a loan application before pydantic validation. -/
structure RawLoanRequest where
  customer_id : String
  amount : ℚ
  purpose : String
  force_approve : Option Bool := none
deriving Repr, DecidableEq

/-- The admissible purpose values of the Literal annotation. -/
def purposeValues : List String :=
  ["cars", "house", "personal", "business", "other"]

/-- Pydantic validation of a loan application body: the purpose must be
one of the Literal values; the amount is accepted unconditionally (the
model puts no bound on it); force_approve defaults to False when absent.
Extra keys in the body (such as force_reject) are ignored by pydantic and
never become attributes of the model. -/
def parseLoanRequest (r : RawLoanRequest) : Option LoanRequest :=
  if r.purpose ∈ purposeValues then
    some { customer_id := r.customer_id, amount := r.amount,
           purpose := r.purpose,
           force_approve := some (r.force_approve.getD false) }
  else none

/-- The database state: the customers and loans collections. -/
structure DB where
  customers : List Customer
  loans : List Loan
deriving Repr, DecidableEq

/-- The observable failures of the apply_for_loan endpoint. -/
inductive ApplyError where
  /-- HTTP 404: the customer id does not resolve. -/
  | customerNotFound : ApplyError
  /-- HTTP 403: hard-rule rejection detail payload (app.py lines 457-466):
  violations, the details snapshot, and the force_approve_allowed flag. -/
  | hardRuleRejection : List Violation → Details → Bool → ApplyError
  /-- An uncaught Python AttributeError: the endpoint read an attribute
  the request model does not declare. -/
  | attributeError : String → ApplyError
deriving Repr, DecidableEq

def forceRejectS : String := "force_reject"

/-- Embeds the apply_for_loan endpoint (app.py lines 445-521) as executed:
look the customer up, run the hard rules, reject with the structured
payload when ineligible.  When the hard rules pass, line 469 reads
request.force_approve (declared, fine) and line 470 reads
request.force_reject - an attribute the LoanRequest model does not
declare, so the endpoint dies with an AttributeError before any decision
branch or loan-record construction runs.  The returned DB is the state
after the call (no path writes a loan). -/
def applyForLoan (request : LoanRequest) (db : DB) :
    Except ApplyError Loan × DB :=
  match db.customers.find? (fun c => c.customer_id == request.customer_id) with
  | none => (Except.error ApplyError.customerNotFound, db)
  | some customer =>
    let eligibility := check_loan_eligibility customer request.amount db.loans
    if eligibility.eligible then
      (Except.error (ApplyError.attributeError forceRejectS), db)
    else
      (Except.error (ApplyError.hardRuleRejection eligibility.violations
        eligibility.details false), db)

-- Status and decision constants written by the decision branches.
def deniedS : String := "denied"
def activeS : String := "active"
def manualReviewS : String := "manual_review"
def userOverrideS : String := "user_override"
def systemAutoS : String := "system_auto"
def reasonManualReject : String := "manual rejection by advisor"
def reasonManualApprove : String := "manual approval by advisor (eligibility verified)"
def reasonCreditReview : String := "credit_score_below_650_needs_review"
def reasonAmountReview : String := "amount_exceeds_30pct_income"
def reasonMeetsAll : String := "meets_all_criteria"

/-- Embeds the decision branches and loan-record construction of
apply_for_loan (app.py lines 469-513), with force_reject as an explicit
parameter.  In the running endpoint this block is unreachable: evaluating
request.force_reject raises an AttributeError because the LoanRequest
model declares no such field (see applyForLoan).  The soft rules subscript
customer[credit_score] and customer[annual_income] directly; a missing key
there is a KeyError, modelled as none. -/
def decideAndBuildLoan (request : LoanRequest) (force_reject : Option Bool)
    (customer : Customer) (details : Details) (newLoanId : String) :
    Option Loan :=
  let user_override := request.force_approve = some true
  let user_reject := force_reject = some true
  let branch : Option (String × Option Bool × String × String) :=
    if user_reject then
      some (deniedS, some false, userOverrideS, reasonManualReject)
    else if user_override then
      some (activeS, some true, userOverrideS, reasonManualApprove)
    else
      match customer.credit_score with
      | none => none
      | some cs =>
        if cs < 650 then
          some (manualReviewS, none, systemAutoS, reasonCreditReview)
        else
          match customer.annual_income with
          | none => none
          | some ai =>
            if ai * (3/10) < request.amount then
              some (manualReviewS, none, systemAutoS, reasonAmountReview)
            else
              some (activeS, some true, systemAutoS, reasonMeetsAll)
  match branch with
  | none => none
  | some (status, approved, decision_source, decision_reason) =>
    some
      { loan_id := newLoanId
        customer_id := request.customer_id
        amount := request.amount
        status := status
        approved := approved
        remaining_balance := some request.amount
        purpose := request.purpose
        decision_source := decision_source
        decision_reason := decision_reason
        eligibility_details := some details }

/-- Result payload of the display DTI endpoint (app.py lines 619-626). -/
structure DtiResult where
  customer_id : String
  monthly_income : ℚ
  existing_monthly_debt : ℚ
  dti : Option ℚ
  risk_level : String
  total_loans_count : Nat
deriving Repr, DecidableEq

/-- Failures of the display DTI endpoint: 404, or an uncaught KeyError
from a direct dict subscript. -/
inductive DtiError where
  | customerNotFound : DtiError
  | keyError : String → DtiError
deriving Repr, DecidableEq

def annualIncomeKey : String := "annual_income"
def remainingBalanceKey : String := "remaining_balance"
def invalidIncomeS : String := "invalid_income"
def goodS : String := "good"
def borderlineS : String := "borderline"
def highRiskS : String := "high_risk"

/-- Embeds the calculate_dti endpoint (app.py lines 594-626).  It queries
ALL of the customer loans (no status filter) and subscripts
customer[annual_income] and l[remaining_balance] directly, so a missing
key is a KeyError (checked up front here, which is observationally the
same as failing during the Python sum). -/
def calculate_dti (customer_id : String) (db : DB) :
    Except DtiError DtiResult :=
  match db.customers.find? (fun c => c.customer_id == customer_id) with
  | none => Except.error DtiError.customerNotFound
  | some customer =>
    match customer.annual_income with
    | none => Except.error (DtiError.keyError annualIncomeKey)
    | some annual_income =>
      let customer_loans := db.loans.filter (fun l => l.customer_id == customer_id)
      if customer_loans.all (fun l => l.remaining_balance.isSome) then
        let monthly_income := annual_income / 12
        let existing_monthly_debt :=
          (customer_loans.map (fun l => l.remaining_balance.getD 0 / 12)).sum
        if monthly_income ≤ 0 then
          Except.ok
            { customer_id := customer_id
              monthly_income := round2 monthly_income
              existing_monthly_debt := round2 existing_monthly_debt
              dti := none
              risk_level := invalidIncomeS
              total_loans_count := customer_loans.length }
        else
          let dtiVal := existing_monthly_debt / monthly_income
          let risk :=
            if dtiVal ≤ 35/100 then goodS
            else if dtiVal ≤ 45/100 then borderlineS
            else highRiskS
          Except.ok
            { customer_id := customer_id
              monthly_income := round2 monthly_income
              existing_monthly_debt := round2 existing_monthly_debt
              dti := some (round4 dtiVal)
              risk_level := risk
              total_loans_count := customer_loans.length }
      else Except.error (DtiError.keyError remainingBalanceKey)

/-
  Spec-side definitions (written from the wording of the claims, to be
  compared against the source embeddings above).
-/

/-- The employment-score policy table as the spec words it (first match
wins): permanent with years at least 2 scores 1.0, permanent otherwise
0.7, contract 0.5, part_time or part-time 0.3, self_employed with at
least 3 business years 0.6 otherwise 0.4, anything else or absent 0.0. -/
def employmentScoreSpec (c : Customer) : ℚ :=
  match c.employment_type with
  | none => 0
  | some t =>
    if t = permanentS then
      (match c.years_with_employer with
       | some y => if 2 ≤ y then 1 else 7/10
       | none => 7/10)
    else if t = contractS then 1/2
    else if t = partTimeS then 3/10
    else if t = partDashS then 3/10
    else if t = selfEmployedS then
      (match c.business_years with
       | some b => if 3 ≤ b then 3/5 else 2/5
       | none => 2/5)
    else 0

/-
  Theorems for the claims.
-/

/-- Claim C4: for every customer record, calculate_employment_score stays
in the interval [0, 1] and follows the first-match-wins policy table
exactly (permanent with tenure at least 2 years scores 1.0, permanent
otherwise 0.7, contract 0.5, both part-time spellings 0.3, self-employed
0.6 or 0.4 by business years, anything unrecognized or absent 0.0); as a
total Lean function it never fails. -/
theorem C4_employment_score (c : Customer) :
    (0 ≤ calculate_employment_score c ∧ calculate_employment_score c ≤ 1) ∧
    calculate_employment_score c = employmentScoreSpec c := by
  unfold calculate_employment_score employmentScoreSpec optAtLeast
  cases hemp : c.employment_type with
  | none => simp
  | some t =>
    cases hy : c.years_with_employer <;> cases hb : c.business_years <;>
      simp only [Option.some.injEq] <;> split_ifs <;> (try simp_all) <;>
      (try norm_num)

/-- Claim C1: whenever the hard eligibility rules fail, apply_for_loan
rejects with the structured payload carrying the full violation list, the
details snapshot and force_approve_allowed = false, writes no loan record
(the database is returned unchanged), and this happens for every request,
whatever the override flags carry (the rejection is raised before the
endpoint ever touches them). -/
theorem C1_hard_rule_rejection (req : LoanRequest) (db : DB) (c : Customer)
    (hc : db.customers.find? (fun x => x.customer_id == req.customer_id) = some c)
    (hne : (check_loan_eligibility c req.amount db.loans).eligible = false) :
    applyForLoan req db =
      (Except.error (ApplyError.hardRuleRejection
        (check_loan_eligibility c req.amount db.loans).violations
        (check_loan_eligibility c req.amount db.loans).details false), db) := by
  unfold applyForLoan
  rw [hc]
  simp [hne]

def idC1 : String := "CU-1"

def purposePersonal : String := "personal"

/-- Customer used for the C1 witness: fails the credit-score rule only. -/
def c1Customer : Customer :=
  { customer_id := idC1, credit_score := some 400,
    annual_income := some 60000, employment_type := some permanentS,
    years_with_employer := some 5 }

def c1Db : DB := { customers := [c1Customer], loans := [] }

/-- Request with force_approve set, to exercise the override-immunity of
the hard-rule rejection. -/
def c1Req : LoanRequest :=
  { customer_id := idC1, amount := 1000, purpose := purposePersonal,
    force_approve := some true }

/-- Witness for C1: at a concrete ineligible customer (credit score 400)
with force_approve set, the endpoint returns the structured hard-rule
rejection and leaves the database unchanged. -/
theorem C1_hard_rule_rejection_witness :
    (c1Db.customers.find? (fun x => x.customer_id == c1Req.customer_id) = some c1Customer)
    ∧ ((check_loan_eligibility c1Customer c1Req.amount c1Db.loans).eligible = false)
    ∧ applyForLoan c1Req c1Db =
      (Except.error (ApplyError.hardRuleRejection
        (check_loan_eligibility c1Customer c1Req.amount c1Db.loans).violations
        (check_loan_eligibility c1Customer c1Req.amount c1Db.loans).details false), c1Db) := by
  have h1 : c1Db.customers.find? (fun x => x.customer_id == c1Req.customer_id) = some c1Customer := by
    simp [c1Db, c1Customer, c1Req, idC1]
  have h2 : (check_loan_eligibility c1Customer c1Req.amount c1Db.loans).eligible = false := by
    norm_num [check_loan_eligibility, c1Customer, c1Req, c1Db, violIf,
      LOAN_ELIGIBILITY_RULES, activeLoansOf, calculate_employment_score,
      optAtLeast, permanentS, contractS, idC1, creditScoreOf, annualIncomeOf,
      monthlyIncomeOf, existingMonthlyDebt, totalMonthlyDebt, dtiOptOf,
      dtiViolatedB, ltiOptOf, ltiViolatedB, blockedFlagsOf]
  exact ⟨h1, h2, C1_hard_rule_rejection c1Req c1Db c1Customer h1 h2⟩

/-
  Structural lemmas about the violations list (shared by several claims).
-/

lemma map_violIf (b : Bool) (v : Violation) :
    (violIf b v).map (fun x => x.rule) = if b then [v.rule] else [] := by
  cases b <;> simp [violIf]

/-- The rule names of the violations list are exactly the 1-7 evaluation
order segments, each present iff its condition fired. -/
lemma violations_map_rule (c : Customer) (amount : ℚ) (loans : List Loan) :
    (check_loan_eligibility c amount loans).violations.map (fun v => v.rule)
      = (if creditScoreOf c < LOAN_ELIGIBILITY_RULES.min_credit_score then [ruleMinCredit] else [])
        ++ (if LOAN_ELIGIBILITY_RULES.max_active_loans ≤ (activeLoansOf loans c.customer_id).length then [ruleMaxActive] else [])
        ++ (if annualIncomeOf c < LOAN_ELIGIBILITY_RULES.min_annual_income then [ruleMinIncome] else [])
        ++ (if dtiViolatedB c amount loans then [ruleMaxDti] else [])
        ++ (if ltiViolatedB c amount then [ruleMaxLti] else [])
        ++ (if calculate_employment_score c < LOAN_ELIGIBILITY_RULES.min_employment_score then [ruleMinEmp] else [])
        ++ (if blockedFlagsOf c ≠ [] then [ruleBlocked] else []) := by
  simp only [check_loan_eligibility, List.map_append, map_violIf,
    decide_eq_true_eq]
  cases hl : ltiOptOf c amount with
  | none => simp [ltiViolatedB, hl]
  | some lti => simp [ltiViolatedB, hl, map_violIf]

lemma eligible_eq_isEmpty (c : Customer) (amount : ℚ) (loans : List Loan) :
    (check_loan_eligibility c amount loans).eligible
      = (check_loan_eligibility c amount loans).violations.isEmpty := by
  have hgen : ∀ l : List Violation, decide (l.length = 0) = l.isEmpty := by
    intro l
    cases l <;> simp
  simp only [check_loan_eligibility]
  exact hgen _

lemma mem_ite_singleton (s x : String) (b : Bool) :
    (s ∈ if b then [x] else []) ↔ (b = true ∧ s = x) := by
  cases b <;> simp

/-
  Spec-side rule conditions for claim C5: the per-rule violation
  conditions, dispatched by rule name.
-/

def specRuleViolated (c : Customer) (amount : ℚ) (loans : List Loan)
    (n : String) : Bool :=
  if n = ruleMinCredit then
    decide (creditScoreOf c < LOAN_ELIGIBILITY_RULES.min_credit_score)
  else if n = ruleMaxActive then
    decide (LOAN_ELIGIBILITY_RULES.max_active_loans ≤ (activeLoansOf loans c.customer_id).length)
  else if n = ruleMinIncome then
    decide (annualIncomeOf c < LOAN_ELIGIBILITY_RULES.min_annual_income)
  else if n = ruleMaxDti then dtiViolatedB c amount loans
  else if n = ruleMaxLti then ltiViolatedB c amount
  else if n = ruleMinEmp then
    decide (calculate_employment_score c < LOAN_ELIGIBILITY_RULES.min_employment_score)
  else if n = ruleBlocked then decide (blockedFlagsOf c ≠ [])
  else false

-- The seven rule names are pairwise distinct; the evaluation lemmas for
-- specRuleViolated at each literal name need the inequalities.
lemma rn_ma_mc : ruleMaxActive ≠ ruleMinCredit := by decide
lemma rn_mi_mc : ruleMinIncome ≠ ruleMinCredit := by decide
lemma rn_mi_ma : ruleMinIncome ≠ ruleMaxActive := by decide
lemma rn_md_mc : ruleMaxDti ≠ ruleMinCredit := by decide
lemma rn_md_ma : ruleMaxDti ≠ ruleMaxActive := by decide
lemma rn_md_mi : ruleMaxDti ≠ ruleMinIncome := by decide
lemma rn_ml_mc : ruleMaxLti ≠ ruleMinCredit := by decide
lemma rn_ml_ma : ruleMaxLti ≠ ruleMaxActive := by decide
lemma rn_ml_mi : ruleMaxLti ≠ ruleMinIncome := by decide
lemma rn_ml_md : ruleMaxLti ≠ ruleMaxDti := by decide
lemma rn_me_mc : ruleMinEmp ≠ ruleMinCredit := by decide
lemma rn_me_ma : ruleMinEmp ≠ ruleMaxActive := by decide
lemma rn_me_mi : ruleMinEmp ≠ ruleMinIncome := by decide
lemma rn_me_md : ruleMinEmp ≠ ruleMaxDti := by decide
lemma rn_me_ml : ruleMinEmp ≠ ruleMaxLti := by decide
lemma rn_bl_mc : ruleBlocked ≠ ruleMinCredit := by decide
lemma rn_bl_ma : ruleBlocked ≠ ruleMaxActive := by decide
lemma rn_bl_mi : ruleBlocked ≠ ruleMinIncome := by decide
lemma rn_bl_md : ruleBlocked ≠ ruleMaxDti := by decide
lemma rn_bl_ml : ruleBlocked ≠ ruleMaxLti := by decide
lemma rn_bl_me : ruleBlocked ≠ ruleMinEmp := by decide

lemma spec_rv_mc (c : Customer) (amount : ℚ) (loans : List Loan) :
    specRuleViolated c amount loans ruleMinCredit
      = decide (creditScoreOf c < LOAN_ELIGIBILITY_RULES.min_credit_score) := by
  simp [specRuleViolated]

lemma spec_rv_ma (c : Customer) (amount : ℚ) (loans : List Loan) :
    specRuleViolated c amount loans ruleMaxActive
      = decide (LOAN_ELIGIBILITY_RULES.max_active_loans ≤ (activeLoansOf loans c.customer_id).length) := by
  simp [specRuleViolated, rn_ma_mc]

lemma spec_rv_mi (c : Customer) (amount : ℚ) (loans : List Loan) :
    specRuleViolated c amount loans ruleMinIncome
      = decide (annualIncomeOf c < LOAN_ELIGIBILITY_RULES.min_annual_income) := by
  simp [specRuleViolated, rn_mi_mc, rn_mi_ma]

lemma spec_rv_md (c : Customer) (amount : ℚ) (loans : List Loan) :
    specRuleViolated c amount loans ruleMaxDti = dtiViolatedB c amount loans := by
  simp [specRuleViolated, rn_md_mc, rn_md_ma, rn_md_mi]

lemma spec_rv_ml (c : Customer) (amount : ℚ) (loans : List Loan) :
    specRuleViolated c amount loans ruleMaxLti = ltiViolatedB c amount := by
  simp [specRuleViolated, rn_ml_mc, rn_ml_ma, rn_ml_mi, rn_ml_md]

lemma spec_rv_me (c : Customer) (amount : ℚ) (loans : List Loan) :
    specRuleViolated c amount loans ruleMinEmp
      = decide (calculate_employment_score c < LOAN_ELIGIBILITY_RULES.min_employment_score) := by
  simp [specRuleViolated, rn_me_mc, rn_me_ma, rn_me_mi, rn_me_md, rn_me_ml]

lemma spec_rv_bl (c : Customer) (amount : ℚ) (loans : List Loan) :
    specRuleViolated c amount loans ruleBlocked
      = decide (blockedFlagsOf c ≠ []) := by
  simp [specRuleViolated, rn_bl_mc, rn_bl_ma, rn_bl_mi, rn_bl_md, rn_bl_ml, rn_bl_me]

lemma ite_singleton_append (p : Prop) [Decidable p] (x : String) (l : List String) :
    ((if p then [x] else []) ++ l) = if p then x :: l else l := by
  split_ifs <;> simp

set_option maxHeartbeats 2000000 in
/-- Claim C5: the evaluator checks all seven rules without
short-circuiting: its violations list names exactly the rules whose
violation condition holds, one entry each, in the fixed evaluation order
1 through 7 (each entry being a full record with rule, message,
current_value and required_value); eligible is true iff the list is
empty; and rules_checked reports the rule-table keys. -/
theorem C5_all_rules_evaluated (c : Customer) (amount : ℚ) (loans : List Loan) :
    (check_loan_eligibility c amount loans).violations.map (fun v => v.rule)
        = evalOrderNames.filter (specRuleViolated c amount loans)
    ∧ (check_loan_eligibility c amount loans).eligible
        = (check_loan_eligibility c amount loans).violations.isEmpty
    ∧ (check_loan_eligibility c amount loans).rules_checked = ruleNames := by
  refine ⟨?_, eligible_eq_isEmpty c amount loans, rfl⟩
  rw [violations_map_rule]
  simp only [evalOrderNames, List.filter_cons, List.filter_nil,
    spec_rv_mc, spec_rv_ma, spec_rv_mi, spec_rv_md, spec_rv_ml,
    spec_rv_me, spec_rv_bl, decide_eq_true_eq, List.append_assoc]
  split_ifs <;> simp

/-
  Membership of single rules in the violations list.
-/

lemma mem_ite_singletonP (s x : String) (p : Prop) [Decidable p] :
    (s ∈ if p then [x] else []) ↔ (p ∧ s = x) := by
  split_ifs with h <;> simp [h]

lemma mem_rules_iff (s : String) (c : Customer) (amount : ℚ) (loans : List Loan) :
    (s ∈ (check_loan_eligibility c amount loans).violations.map (fun v => v.rule))
      ↔ ((creditScoreOf c < LOAN_ELIGIBILITY_RULES.min_credit_score ∧ s = ruleMinCredit)
        ∨ (LOAN_ELIGIBILITY_RULES.max_active_loans ≤ (activeLoansOf loans c.customer_id).length ∧ s = ruleMaxActive)
        ∨ (annualIncomeOf c < LOAN_ELIGIBILITY_RULES.min_annual_income ∧ s = ruleMinIncome)
        ∨ (dtiViolatedB c amount loans = true ∧ s = ruleMaxDti)
        ∨ (ltiViolatedB c amount = true ∧ s = ruleMaxLti)
        ∨ (calculate_employment_score c < LOAN_ELIGIBILITY_RULES.min_employment_score ∧ s = ruleMinEmp)
        ∨ (blockedFlagsOf c ≠ [] ∧ s = ruleBlocked)) := by
  rw [violations_map_rule]
  simp only [List.mem_append, mem_ite_singletonP, or_assoc]

lemma mem_maxDti_iff (c : Customer) (amount : ℚ) (loans : List Loan) :
    (ruleMaxDti ∈ (check_loan_eligibility c amount loans).violations.map (fun v => v.rule))
      ↔ dtiViolatedB c amount loans = true := by
  rw [mem_rules_iff]
  simp [ruleMinCredit, ruleMaxActive, ruleMinIncome, ruleMaxDti, ruleMaxLti,
    ruleMinEmp, ruleBlocked]

/-
  Arithmetic characterisation of the rule-4 condition.
-/

lemma monthlyIncome_pos_iff (c : Customer) :
    0 < monthlyIncomeOf c ↔ 0 < annualIncomeOf c := by
  unfold monthlyIncomeOf
  split_ifs with h
  · constructor
    · intro _
      exact h
    · intro _
      positivity
  · simp [h]

lemma dtiViolatedB_pos_income (c : Customer) (amount : ℚ) (loans : List Loan)
    (h : 0 < monthlyIncomeOf c) :
    dtiViolatedB c amount loans
      = decide (LOAN_ELIGIBILITY_RULES.max_dti
          < totalMonthlyDebt c amount loans / monthlyIncomeOf c) := by
  unfold dtiViolatedB dtiOptOf
  simp [h]

lemma dtiViolatedB_nonpos_income (c : Customer) (amount : ℚ) (loans : List Loan)
    (h : monthlyIncomeOf c ≤ 0) :
    dtiViolatedB c amount loans
      = decide (0 < totalMonthlyDebt c amount loans) := by
  have h0 : ¬ 0 < monthlyIncomeOf c := not_lt.mpr h
  unfold dtiViolatedB dtiOptOf
  by_cases ht : 0 < totalMonthlyDebt c amount loans
  · simp [h0, ht]
  · simp [h0, ht, LOAN_ELIGIBILITY_RULES]

lemma projected_dti_eq (c : Customer) (amount : ℚ) (loans : List Loan) :
    (check_loan_eligibility c amount loans).details.projected_dti
      = (match dtiOptOf c amount loans with
         | none => none
         | some d => some (round4 d)) := rfl

/-- Claim C6: the max_dti rule (threshold 0.50) tests the projected ratio
(existing monthly debt plus proposed amount / 12, divided by monthly
income): with positive monthly income the violation fires iff that ratio
exceeds 0.50; with non-positive monthly income it fires iff the projected
total monthly debt is positive (the float-infinity branch), in which case
the details snapshot reports projected_dti as null; and with non-positive
projected debt it does not fire. -/
theorem C6_max_dti_projected (c : Customer) (amount : ℚ) (loans : List Loan) :
    (0 < monthlyIncomeOf c →
      ((ruleMaxDti ∈ (check_loan_eligibility c amount loans).violations.map (fun v => v.rule))
        ↔ 1/2 < totalMonthlyDebt c amount loans / monthlyIncomeOf c))
    ∧ (monthlyIncomeOf c ≤ 0 →
      ((ruleMaxDti ∈ (check_loan_eligibility c amount loans).violations.map (fun v => v.rule))
        ↔ 0 < totalMonthlyDebt c amount loans))
    ∧ (monthlyIncomeOf c ≤ 0 → 0 < totalMonthlyDebt c amount loans →
      (check_loan_eligibility c amount loans).details.projected_dti = none) := by
  refine ⟨?_, ?_, ?_⟩
  · intro h
    rw [mem_maxDti_iff, dtiViolatedB_pos_income c amount loans h]
    simp [LOAN_ELIGIBILITY_RULES]
  · intro h
    rw [mem_maxDti_iff, dtiViolatedB_nonpos_income c amount loans h]
    simp
  · intro h ht
    have h0 : ¬ 0 < monthlyIncomeOf c := not_lt.mpr h
    rw [projected_dti_eq]
    unfold dtiOptOf
    simp [h0, ht]

def idC6a : String := "CU-6A"

def idC6b : String := "CU-6B"

/-- Positive-income customer for the C6 witness: monthly income 1000. -/
def c6aCustomer : Customer :=
  { customer_id := idC6a, credit_score := some 700,
    annual_income := some 12000, employment_type := some permanentS,
    years_with_employer := some 4 }

/-- Zero-income customer for the C6 witness. -/
def c6bCustomer : Customer :=
  { customer_id := idC6b, credit_score := some 700,
    annual_income := some 0, employment_type := some permanentS,
    years_with_employer := some 4 }

/-- Witness for C6: at annual income 12000 and requested amount 12000 the
projected ratio is 1 > 0.5, so max_dti fires; at zero income and amount
100 the infinity branch fires and projected_dti is reported null. -/
theorem C6_max_dti_projected_witness :
    (0 < monthlyIncomeOf c6aCustomer
      ∧ ruleMaxDti ∈ (check_loan_eligibility c6aCustomer 12000 []).violations.map (fun v => v.rule))
    ∧ (monthlyIncomeOf c6bCustomer ≤ 0
      ∧ 0 < totalMonthlyDebt c6bCustomer 100 []
      ∧ ruleMaxDti ∈ (check_loan_eligibility c6bCustomer 100 []).violations.map (fun v => v.rule)
      ∧ (check_loan_eligibility c6bCustomer 100 []).details.projected_dti = none) := by
  have ha : 0 < monthlyIncomeOf c6aCustomer := by
    norm_num [monthlyIncomeOf, annualIncomeOf, c6aCustomer]
  have hra : 1/2 < totalMonthlyDebt c6aCustomer 12000 [] / monthlyIncomeOf c6aCustomer := by
    norm_num [totalMonthlyDebt, existingMonthlyDebt, activeLoansOf,
      monthlyIncomeOf, annualIncomeOf, c6aCustomer]
  have hb : monthlyIncomeOf c6bCustomer ≤ 0 := by
    norm_num [monthlyIncomeOf, annualIncomeOf, c6bCustomer]
  have htb : 0 < totalMonthlyDebt c6bCustomer 100 [] := by
    norm_num [totalMonthlyDebt, existingMonthlyDebt, activeLoansOf, c6bCustomer]
  exact ⟨⟨ha, ((C6_max_dti_projected c6aCustomer 12000 []).1 ha).mpr hra⟩,
    hb, htb, ((C6_max_dti_projected c6bCustomer 100 []).2.1 hb).mpr htb,
    (C6_max_dti_projected c6bCustomer 100 []).2.2 hb htb⟩

lemma details_credit_eq (c : Customer) (amount : ℚ) (loans : List Loan) :
    (check_loan_eligibility c amount loans).details.credit_score
      = creditScoreOf c := rfl

lemma details_income_eq (c : Customer) (amount : ℚ) (loans : List Loan) :
    (check_loan_eligibility c amount loans).details.annual_income
      = annualIncomeOf c := rfl

/-- Claim C9: a customer document missing credit_score or annual_income
does not make the evaluator fail: the missing value is read as 0, that 0
is recorded in the details snapshot, and the corresponding minimum rule
(min_credit_score, respectively min_annual_income) appears in the
violations of the normally returned result. -/
theorem C9_missing_numeric_fields (c : Customer) (amount : ℚ) (loans : List Loan) :
    (c.credit_score = none →
      (check_loan_eligibility c amount loans).details.credit_score = 0
      ∧ ruleMinCredit ∈ (check_loan_eligibility c amount loans).violations.map (fun v => v.rule))
    ∧ (c.annual_income = none →
      (check_loan_eligibility c amount loans).details.annual_income = 0
      ∧ ruleMinIncome ∈ (check_loan_eligibility c amount loans).violations.map (fun v => v.rule)) := by
  constructor
  · intro h
    have hcs : creditScoreOf c = 0 := by simp [creditScoreOf, h]
    refine ⟨by rw [details_credit_eq, hcs], ?_⟩
    refine (mem_rules_iff _ c amount loans).mpr (Or.inl ⟨?_, rfl⟩)
    rw [hcs]
    norm_num [LOAN_ELIGIBILITY_RULES]
  · intro h
    have hai : annualIncomeOf c = 0 := by simp [annualIncomeOf, h]
    refine ⟨by rw [details_income_eq, hai], ?_⟩
    refine (mem_rules_iff _ c amount loans).mpr
      (Or.inr (Or.inr (Or.inl ⟨?_, rfl⟩)))
    rw [hai]
    norm_num [LOAN_ELIGIBILITY_RULES]

def idC9 : String := "CU-9"

/-- Customer document carrying neither credit_score nor annual_income. -/
def c9Customer : Customer := { customer_id := idC9 }

/-- Witness for C9: a customer with both numeric fields absent gets 0
recorded in the details and both minimum-rule violations reported. -/
theorem C9_missing_numeric_fields_witness :
    c9Customer.credit_score = none ∧ c9Customer.annual_income = none
    ∧ (check_loan_eligibility c9Customer 500 []).details.credit_score = 0
    ∧ ruleMinCredit ∈ (check_loan_eligibility c9Customer 500 []).violations.map (fun v => v.rule)
    ∧ (check_loan_eligibility c9Customer 500 []).details.annual_income = 0
    ∧ ruleMinIncome ∈ (check_loan_eligibility c9Customer 500 []).violations.map (fun v => v.rule) := by
  have h := C9_missing_numeric_fields c9Customer 500 []
  exact ⟨rfl, rfl, (h.1 rfl).1, (h.1 rfl).2, (h.2 rfl).1, (h.2 rfl).2⟩

def idC2 : String := "CU-2"

/-- Fully eligible customer for C2: credit 720, income 60000, permanent
employment of 5 years, no risk flags. -/
def c2Customer : Customer :=
  { customer_id := idC2, credit_score := some 720,
    annual_income := some 60000, employment_type := some permanentS,
    years_with_employer := some 5 }

def c2Db : DB := { customers := [c2Customer], loans := [] }

def c2Req : LoanRequest :=
  { customer_id := idC2, amount := 10000, purpose := purposePersonal,
    force_approve := some false }

/-- Claim C2 (code bug): for a fully eligible customer the decision logic
does not complete: the endpoint passes the hard rules and then dies with
an AttributeError reading request.force_reject, a field the LoanRequest
model never declares, instead of producing a loan record; the claim that
every branch after the customer lookup is total is contradicted at this
concrete input. -/
theorem C2_decision_logic_raises :
    (check_loan_eligibility c2Customer c2Req.amount c2Db.loans).eligible = true
    ∧ applyForLoan c2Req c2Db
      = (Except.error (ApplyError.attributeError forceRejectS), c2Db) := by
  have he : (check_loan_eligibility c2Customer c2Req.amount c2Db.loans).eligible = true := by
    norm_num [check_loan_eligibility, c2Customer, c2Req, c2Db, violIf,
      LOAN_ELIGIBILITY_RULES, activeLoansOf, calculate_employment_score,
      optAtLeast, permanentS, contractS, idC2, creditScoreOf, annualIncomeOf,
      monthlyIncomeOf, existingMonthlyDebt, totalMonthlyDebt, dtiOptOf,
      dtiViolatedB, ltiOptOf, ltiViolatedB, blockedFlagsOf]
  have hf : c2Db.customers.find? (fun x => x.customer_id == c2Req.customer_id)
      = some c2Customer := by
    simp [c2Db, c2Customer, c2Req, idC2]
  refine ⟨he, ?_⟩
  unfold applyForLoan
  rw [hf]
  simp [he]

def idC3 : String := "CU-3"

def ln3 : String := "LN-3"

/-- Fully eligible customer for C3. -/
def c3Customer : Customer :=
  { customer_id := idC3, credit_score := some 720,
    annual_income := some 60000, employment_type := some permanentS,
    years_with_employer := some 5 }

def c3Db : DB := { customers := [c3Customer], loans := [] }

/-- Request with force_approve set, standing for a caller that sets both
override flags (force_reject is not even representable in the model). -/
def c3Req : LoanRequest :=
  { customer_id := idC3, amount := 5000, purpose := purposePersonal,
    force_approve := some true }

def c3Details : Details :=
  (check_loan_eligibility c3Customer c3Req.amount c3Db.loans).details

/-- The denied loan record the lines 472-513 decision code would build
for this request when force_reject is set. -/
def c3Loan : Loan :=
  { loan_id := ln3, customer_id := idC3, amount := 5000, status := deniedS,
    approved := some false, remaining_balance := some 5000,
    purpose := purposePersonal, decision_source := userOverrideS,
    decision_reason := reasonManualReject,
    eligibility_details := some c3Details }

/-- Claim C3 (code bug): with the hard rules passing and force_reject
set, no denied loan is produced: the endpoint dies with an AttributeError
because the LoanRequest model has no force_reject field (pydantic drops
the key from the body, and reading the attribute raises).  The decision
code at lines 472-482, modelled with the flag as an explicit input, does
give reject precedence over force_approve and builds the denied record
the claim describes - but it is unreachable. -/
theorem C3_force_reject_precedence_unreachable :
    applyForLoan c3Req c3Db
      = (Except.error (ApplyError.attributeError forceRejectS), c3Db)
    ∧ decideAndBuildLoan c3Req (some true) c3Customer c3Details ln3 = some c3Loan
    ∧ c3Loan.status = deniedS ∧ c3Loan.approved = some false
    ∧ c3Loan.decision_source = userOverrideS
    ∧ c3Loan.decision_reason = reasonManualReject := by
  have he : (check_loan_eligibility c3Customer c3Req.amount c3Db.loans).eligible = true := by
    norm_num [check_loan_eligibility, c3Customer, c3Req, c3Db, violIf,
      LOAN_ELIGIBILITY_RULES, activeLoansOf, calculate_employment_score,
      optAtLeast, permanentS, contractS, idC3, creditScoreOf, annualIncomeOf,
      monthlyIncomeOf, existingMonthlyDebt, totalMonthlyDebt, dtiOptOf,
      dtiViolatedB, ltiOptOf, ltiViolatedB, blockedFlagsOf]
  have hf : c3Db.customers.find? (fun x => x.customer_id == c3Req.customer_id)
      = some c3Customer := by
    simp [c3Db, c3Customer, c3Req, idC3]
  refine ⟨?_, ?_, rfl, rfl, rfl, rfl⟩
  · unfold applyForLoan
    rw [hf]
    simp [he]
  · simp [decideAndBuildLoan, c3Req, c3Loan, c3Customer, idC3, ln3]

/-- Claim C10: every loan record the decision code constructs carries the
tri-state approved flag determined by its status (true for active, false
for denied, null for manual_review; these are the only statuses), and its
remaining_balance (and amount) equal the requested amount. -/
theorem C10_loan_record_invariant (req : LoanRequest) (fr : Option Bool)
    (c : Customer) (d : Details) (nid : String) (loan : Loan)
    (h : decideAndBuildLoan req fr c d nid = some loan) :
    loan.remaining_balance = some req.amount
    ∧ loan.amount = req.amount
    ∧ (loan.status = activeS → loan.approved = some true)
    ∧ (loan.status = deniedS → loan.approved = some false)
    ∧ (loan.status = manualReviewS → loan.approved = none)
    ∧ (loan.status = activeS ∨ loan.status = deniedS ∨ loan.status = manualReviewS) := by
  unfold decideAndBuildLoan at h
  by_cases hr : fr = some true <;> simp [hr] at h
  · subst h
    simp [deniedS, activeS, manualReviewS]
  · by_cases ha : req.force_approve = some true <;> simp [ha] at h
    · subst h
      simp [deniedS, activeS, manualReviewS]
    · cases hcs : c.credit_score with
      | none => simp [hcs] at h
      | some cs =>
        simp only [hcs] at h
        by_cases hlow : cs < 650 <;> simp [hlow] at h
        · subst h
          simp [deniedS, activeS, manualReviewS]
        · cases hai : c.annual_income with
          | none => simp [hai] at h
          | some ai =>
            simp only [hai] at h
            by_cases hamt : ai * (3/10) < req.amount <;> simp [hamt] at h <;>
              subst h <;> simp [deniedS, activeS, manualReviewS]

def idC10 : String := "CU-10"

def ln10 : String := "LN-10"

def c10Customer : Customer :=
  { customer_id := idC10, credit_score := some 700,
    annual_income := some 30000 }

def c10Req : LoanRequest :=
  { customer_id := idC10, amount := 7000, purpose := purposePersonal,
    force_approve := some false }

def c10Details : Details :=
  (check_loan_eligibility c10Customer c10Req.amount []).details

def c10Loan : Loan :=
  { loan_id := ln10, customer_id := idC10, amount := 7000, status := deniedS,
    approved := some false, remaining_balance := some 7000,
    purpose := purposePersonal, decision_source := userOverrideS,
    decision_reason := reasonManualReject,
    eligibility_details := some c10Details }

/-- Witness for C10: the record built on the manual-rejection branch has
approved = false for status denied and remaining balance 7000 = amount. -/
theorem C10_loan_record_invariant_witness :
    c10Loan.remaining_balance = some c10Req.amount
    ∧ c10Loan.amount = c10Req.amount
    ∧ (c10Loan.status = activeS → c10Loan.approved = some true)
    ∧ (c10Loan.status = deniedS → c10Loan.approved = some false)
    ∧ (c10Loan.status = manualReviewS → c10Loan.approved = none)
    ∧ (c10Loan.status = activeS ∨ c10Loan.status = deniedS ∨ c10Loan.status = manualReviewS) := by
  have h : decideAndBuildLoan c10Req (some true) c10Customer c10Details ln10
      = some c10Loan := by
    simp [decideAndBuildLoan, c10Req, c10Loan, c10Customer, idC10, ln10]
  exact C10_loan_record_invariant c10Req (some true) c10Customer c10Details
    ln10 c10Loan h

def approvedS : String := "approved"

def activeCapS : String := "Active"

def idC7 : String := "CU-7"

def ln7a : String := "LN-7A"

def ln7b : String := "LN-7B"

def c7Customer : Customer :=
  { customer_id := idC7, credit_score := some 700,
    annual_income := some 24000 }

/-- A denied loan: per the claim it should contribute nothing to any
aggregate. -/
def c7DeniedLoan : Loan :=
  { loan_id := ln7a, customer_id := idC7, amount := 1200, status := deniedS,
    remaining_balance := some 1200, purpose := purposePersonal }

/-- A loan with status Active (capital A), outside the claim's lowercase
status set. -/
def c7CapLoan : Loan :=
  { loan_id := ln7b, customer_id := idC7, amount := 1200,
    status := activeCapS, remaining_balance := some 1200,
    purpose := purposePersonal }

def c7Db : DB := { customers := [c7Customer], loans := [c7DeniedLoan, c7CapLoan] }

lemma details_active_count_eq (c : Customer) (amount : ℚ) (loans : List Loan) :
    (check_loan_eligibility c amount loans).details.active_loan_count
      = (activeLoansOf loans c.customer_id).length := rfl

lemma activeLoansOf_filter_eq (loans : List Loan) (cid : String) :
    activeLoansOf loans cid
      = loans.filter (fun l => decide (l.customer_id = cid
          ∧ (l.status = approvedS ∨ l.status = activeCapS ∨ l.status = activeS))) := by
  unfold activeLoansOf
  congr 1
  funext l
  simp [decide_eq_decide, activeStatuses, approvedS, activeCapS, activeS]

/-- Counterexample to claim C7: the display DTI endpoint counts loans of
every status - a denied loan and a capital-A Active loan each contribute
100 to the existing monthly debt (total 200, not 100, and not 0) - and
the eligibility evaluator counts the capital-A Active loan (count 1),
though Active is outside the claimed status set \x7bapproved, active\x7d. -/
theorem C7_counterexample :
    ((calculate_dti idC7 c7Db).toOption.map (fun r => r.existing_monthly_debt)
      = some 200)
    ∧ (check_loan_eligibility c7Customer 100 c7Db.loans).details.active_loan_count = 1
    ∧ c7DeniedLoan.status = deniedS ∧ c7CapLoan.status = activeCapS := by
  refine ⟨?_, ?_, rfl, rfl⟩
  · have : calculate_dti idC7 c7Db
        = Except.ok
          { customer_id := idC7, monthly_income := 2000,
            existing_monthly_debt := 200, dti := some (1/10),
            risk_level := goodS, total_loans_count := 2 } := by
      norm_num [calculate_dti, c7Db, c7Customer, c7DeniedLoan, c7CapLoan,
        idC7, ln7a, ln7b, round2, round4, deniedS, activeCapS, goodS,
        borderlineS, highRiskS, invalidIncomeS]
    rw [this]
    rfl
  · have : activeLoansOf c7Db.loans idC7 = [c7CapLoan] := by
      simp [activeLoansOf, c7Db, c7DeniedLoan, c7CapLoan, activeStatuses,
        deniedS, activeCapS, idC7]
    rw [details_active_count_eq]
    show (activeLoansOf c7Db.loans c7Customer.customer_id).length = 1
    rw [show c7Customer.customer_id = idC7 from rfl, this]
    rfl

/-- Amended claim C7: in the eligibility evaluator the loans counted
toward the active-loan count and the DTI aggregates are those with status
in \x7bapproved, Active, active\x7d (capital-A Active included); the display
DTI endpoint counts ALL the customer loans, whatever their status. -/
theorem C7_amended_status_filters (c : Customer) (amount : ℚ)
    (loans : List Loan) (cid : String) (db : DB) (r : DtiResult)
    (h : calculate_dti cid db = Except.ok r) :
    (check_loan_eligibility c amount loans).details.active_loan_count
      = (loans.filter (fun l => decide (l.customer_id = c.customer_id
          ∧ (l.status = approvedS ∨ l.status = activeCapS ∨ l.status = activeS)))).length
    ∧ (check_loan_eligibility c amount loans).details.current_dti
      = (if 0 < monthlyIncomeOf c
         then some (round4 (existingMonthlyDebt c loans / monthlyIncomeOf c))
         else none)
    ∧ r.total_loans_count
      = (db.loans.filter (fun l => l.customer_id == cid)).length
    ∧ r.existing_monthly_debt
      = round2 (((db.loans.filter (fun l => l.customer_id == cid)).map
          (fun l => l.remaining_balance.getD 0 / 12)).sum) := by
  refine ⟨?_, rfl, ?_⟩
  · rw [details_active_count_eq, activeLoansOf_filter_eq]
  · unfold calculate_dti at h
    cases hf : db.customers.find? (fun x => x.customer_id == cid) with
    | none =>
      rw [hf] at h
      simp at h
    | some cust =>
      simp only [hf] at h
      cases hai : cust.annual_income with
      | none => simp [hai] at h
      | some ai =>
        simp only [hai] at h
        split_ifs at h <;>
          first
            | (subst h; exact ⟨rfl, rfl⟩)
            | (rw [Except.ok.injEq] at h; subst h; exact ⟨rfl, rfl⟩)
            | simp at h

/-- The record the display DTI endpoint returns on c7Db. -/
def c7DtiRec : DtiResult :=
  { customer_id := idC7, monthly_income := 2000,
    existing_monthly_debt := 200, dti := some (1/10),
    risk_level := goodS, total_loans_count := 2 }

/-- Witness for the amended C7: on the concrete two-loan database the
display endpoint succeeds and the amended equalities hold. -/
theorem C7_amended_status_filters_witness :
    calculate_dti idC7 c7Db = Except.ok c7DtiRec
    ∧ ((check_loan_eligibility c7Customer 100 c7Db.loans).details.active_loan_count
        = (c7Db.loans.filter (fun l => decide (l.customer_id = c7Customer.customer_id
            ∧ (l.status = approvedS ∨ l.status = activeCapS ∨ l.status = activeS)))).length
      ∧ (check_loan_eligibility c7Customer 100 c7Db.loans).details.current_dti
        = (if 0 < monthlyIncomeOf c7Customer
           then some (round4 (existingMonthlyDebt c7Customer c7Db.loans / monthlyIncomeOf c7Customer))
           else none)
      ∧ c7DtiRec.total_loans_count
        = (c7Db.loans.filter (fun l => l.customer_id == idC7)).length
      ∧ c7DtiRec.existing_monthly_debt
        = round2 (((c7Db.loans.filter (fun l => l.customer_id == idC7)).map
            (fun l => l.remaining_balance.getD 0 / 12)).sum)) := by
  have h : calculate_dti idC7 c7Db = Except.ok c7DtiRec := by
    norm_num [calculate_dti, c7Db, c7Customer, c7DeniedLoan, c7CapLoan,
      idC7, ln7a, ln7b, round2, round4, deniedS, activeCapS, goodS,
      borderlineS, highRiskS, invalidIncomeS, c7DtiRec]
  exact ⟨h, C7_amended_status_filters c7Customer 100 c7Db.loans idC7 c7Db
    c7DtiRec h⟩

def idC8 : String := "CU-8"

/-- Customer for C8 failing only the credit rule (score 400). -/
def c8Customer : Customer :=
  { customer_id := idC8, credit_score := some 400,
    annual_income := some 60000, employment_type := some permanentS,
    years_with_employer := some 5 }

def c8Db : DB := { customers := [c8Customer], loans := [] }

/-- A request body with a NEGATIVE amount and a valid purpose. -/
def c8Raw : RawLoanRequest :=
  { customer_id := idC8, amount := -100, purpose := purposePersonal }

def c8Req : LoanRequest :=
  { customer_id := idC8, amount := -100, purpose := purposePersonal,
    force_approve := some false }

/-- Projection picking out the hard-rule rejection payload rule names of
an apply outcome, if that is what it is. -/
def hardRejectionRules (e : Except ApplyError Loan) : Option (List String) :=
  match e with
  | Except.error (ApplyError.hardRuleRejection vs _ _) => some (vs.map (fun v => v.rule))
  | _ => none

/-- Counterexample to claim C8: a negative amount is NOT rejected as
invalid input before evaluation: pydantic validation accepts the body
(amount -100, purpose personal), and apply_for_loan proceeds into
hard-rule evaluation, returning a policy rejection naming
min_credit_score - so hard-rule evaluation did run on a non-positive
amount. -/
theorem C8_counterexample :
    parseLoanRequest c8Raw = some c8Req
    ∧ c8Req.amount ≤ 0
    ∧ hardRejectionRules (applyForLoan c8Req c8Db).1 = some [ruleMinCredit] := by
  have hmap : (check_loan_eligibility c8Customer c8Req.amount c8Db.loans).violations.map (fun v => v.rule)
      = [ruleMinCredit] := by
    rw [violations_map_rule]
    norm_num [c8Customer, c8Req, c8Db, LOAN_ELIGIBILITY_RULES, activeLoansOf,
      calculate_employment_score, optAtLeast, permanentS, contractS, idC8,
      creditScoreOf, annualIncomeOf, monthlyIncomeOf, existingMonthlyDebt,
      totalMonthlyDebt, dtiOptOf, dtiViolatedB, ltiOptOf, ltiViolatedB,
      blockedFlagsOf]
  have hne : (check_loan_eligibility c8Customer c8Req.amount c8Db.loans).eligible = false := by
    norm_num [check_loan_eligibility, c8Customer, c8Req, c8Db, violIf,
      LOAN_ELIGIBILITY_RULES, activeLoansOf, calculate_employment_score,
      optAtLeast, permanentS, contractS, idC8, creditScoreOf, annualIncomeOf,
      monthlyIncomeOf, existingMonthlyDebt, totalMonthlyDebt, dtiOptOf,
      dtiViolatedB, ltiOptOf, ltiViolatedB, blockedFlagsOf]
  have hf : c8Db.customers.find? (fun x => x.customer_id == c8Req.customer_id)
      = some c8Customer := by
    simp [c8Db, c8Customer, c8Req, idC8]
  have happly : applyForLoan c8Req c8Db
      = (Except.error (ApplyError.hardRuleRejection
          (check_loan_eligibility c8Customer c8Req.amount c8Db.loans).violations
          (check_loan_eligibility c8Customer c8Req.amount c8Db.loans).details
          false), c8Db) := by
    unfold applyForLoan
    rw [hf]
    simp [hne]
  refine ⟨?_, by norm_num [c8Req], ?_⟩
  · simp [parseLoanRequest, c8Raw, c8Req, purposeValues, purposePersonal, idC8]
  · rw [happly]
    show hardRejectionRules (Except.error (ApplyError.hardRuleRejection _ _ false)) = _
    rw [hardRejectionRules]
    rw [hmap]

/-- Amended claim C8: request validation rejects a purpose outside the
enum before any evaluation, but it accepts ANY amount (zero or negative
included); for such an accepted request apply_for_loan runs the hard-rule
evaluation as usual - an ineligible customer gets the policy rejection
carrying the evaluation results, not an invalid-input rejection. -/
theorem C8_amended_validation (raw : RawLoanRequest) (req : LoanRequest)
    (db : DB) (c : Customer) :
    (raw.purpose ∉ purposeValues → parseLoanRequest raw = none)
    ∧ (raw.purpose ∈ purposeValues →
        parseLoanRequest raw
          = some { customer_id := raw.customer_id, amount := raw.amount,
                   purpose := raw.purpose,
                   force_approve := some (raw.force_approve.getD false) })
    ∧ (req.amount ≤ 0 →
        db.customers.find? (fun x => x.customer_id == req.customer_id) = some c →
        (check_loan_eligibility c req.amount db.loans).eligible = false →
        applyForLoan req db
          = (Except.error (ApplyError.hardRuleRejection
              (check_loan_eligibility c req.amount db.loans).violations
              (check_loan_eligibility c req.amount db.loans).details false), db)) := by
  refine ⟨?_, ?_, ?_⟩
  · intro h
    simp [parseLoanRequest, h]
  · intro h
    simp [parseLoanRequest, h]
  · intro _ hf hne
    unfold applyForLoan
    rw [hf]
    simp [hne]

def badPurposeS : String := "vacation"

/-- A request body with a purpose outside the Literal enum. -/
def c8BadRaw : RawLoanRequest :=
  { customer_id := idC8, amount := 100, purpose := badPurposeS }

/-- Witness for the amended C8: the malformed purpose is refused by
validation; the negative-amount body is accepted; and the endpoint
produces the hard-rule rejection for it, not an invalid-input error. -/
theorem C8_amended_validation_witness :
    parseLoanRequest c8BadRaw = none
    ∧ parseLoanRequest c8Raw
      = some { customer_id := c8Raw.customer_id, amount := c8Raw.amount,
               purpose := c8Raw.purpose,
               force_approve := some (c8Raw.force_approve.getD false) }
    ∧ applyForLoan c8Req c8Db
      = (Except.error (ApplyError.hardRuleRejection
          (check_loan_eligibility c8Customer c8Req.amount c8Db.loans).violations
          (check_loan_eligibility c8Customer c8Req.amount c8Db.loans).details
          false), c8Db) := by
  have hne : (check_loan_eligibility c8Customer c8Req.amount c8Db.loans).eligible = false := by
    norm_num [check_loan_eligibility, c8Customer, c8Req, c8Db, violIf,
      LOAN_ELIGIBILITY_RULES, activeLoansOf, calculate_employment_score,
      optAtLeast, permanentS, contractS, idC8, creditScoreOf, annualIncomeOf,
      monthlyIncomeOf, existingMonthlyDebt, totalMonthlyDebt, dtiOptOf,
      dtiViolatedB, ltiOptOf, ltiViolatedB, blockedFlagsOf]
  have hf : c8Db.customers.find? (fun x => x.customer_id == c8Req.customer_id)
      = some c8Customer := by
    simp [c8Db, c8Customer, c8Req, idC8]
  have h := C8_amended_validation c8BadRaw c8Req c8Db c8Customer
  have h2 := C8_amended_validation c8Raw c8Req c8Db c8Customer
  refine ⟨h.1 ?_, h2.2.1 ?_, h2.2.2 (by norm_num [c8Req]) hf hne⟩
  · simp [c8BadRaw, badPurposeS, purposeValues]
  · simp [c8Raw, purposePersonal, purposeValues]

end LoanEngine
